import Mathlib

/-!
Verification development for the Solder Reflow Hot Plate controller
(src/Code/PlatformIO/Solder_Reflow_Hot_Plate/src/main.cpp, ATMEGA328P target).

Modelling conventions, chosen to match the AVR build of the source:
- C double values are modelled as rationals; the arithmetic the claims
  depend on is exact at the claimed inputs.
- The AVR int type is 16 bit; where an intermediate can leave the int16
  range we reduce through wrap16 (two complement wrap-around), and where
  the C conversion is undefined (double to out-of-range int) the model
  returns Option.none.
- uint8_t values are natural numbers below 256; the C conversion from int
  to uint8_t is reduction mod 256.
- Thermistor sampling and the Steinhart conversion (main.cpp lines 843-874)
  are pure input acquisition: the converted temperature of each channel is
  passed in as a parameter of the tick, and the fault logic that follows it
  (lines 876-903) is embedded literally.
-/

/-- Two-complement wrap of an integer into the 16-bit int range
[-32768, 32767], the AVR int type of the target named in main.cpp line 5. -/
def wrap16 (z : ℤ) : ℤ := (z + 32768) % 65536 - 32768

/-- C conversion from int to uint8_t: reduction mod 256 (C++ conv.integral,
well defined for the unsigned target type). -/
def uint8ofInt (z : ℤ) : ℕ := (z % 256).toNat

/-- C double-to-int truncation toward zero. -/
def rtrunc (v : ℚ) : ℤ := if 0 ≤ v then ⌊v⌋ else -⌊-v⌋

/-- C conversion from double to the 16-bit int: truncation toward zero when
the truncated value is representable, undefined (modelled as none) when it
is out of range, as in the expression parametersPID[i] * 100 assigned to the
int array parametersPIDint (main.cpp line 403). -/
def doubleToInt16 (v : ℚ) : Option ℤ :=
  if -32768 ≤ rtrunc v ∧ rtrunc v ≤ 32767 then some (rtrunc v) else none

/-- PID_v1 controller mode: MANUAL or AUTOMATIC (SetMode argument). -/
inductive PidMode where
  | manual
  | automatic

/-- The observable state of one PID_v1 object: its mode flag (inAuto) and
the value held behind its output pointer (pid1_Output / pid2_Output,
main.cpp lines 97-98). The control law itself is abstracted by an oracle
passed to PID_Compute, because no claim depends on the law. -/
structure PIDLoop where
  mode : PidMode
  output : ℚ

/-- PID_v1 Compute: in MANUAL mode it returns without touching the output;
in AUTOMATIC mode the output is produced by the control law, abstracted
here as an oracle f applied to (previous output, input, setpoint), which
also absorbs the 200 ms sample-time gate. -/
def PID_Compute (f : ℚ → ℚ → ℚ → ℚ) (input setpoint : ℚ) (p : PIDLoop) : PIDLoop :=
  match p.mode with
  | PidMode.manual => p
  | PidMode.automatic => { p with output := f p.output input setpoint }

/-- PID_v1 SetMode: sets the inAuto flag; it does not alter the output. -/
def PID_SetMode (m : PidMode) (p : PIDLoop) : PIDLoop := { p with mode := m }

/-- Global controller state touched by the running logic of main.cpp:
thermistor globals (lines 54-61), PID objects and shared setpoint
(lines 96-112), and the running execution variables (lines 100-107).
parametersReflow is the 7-entry uint8_t array of line 87. -/
structure Sys where
  steinhart1 : ℚ
  steinhart2 : ℚ
  thermistor1Buffer : ℚ
  thermistor2Buffer : ℚ
  thermistor1Fail : Bool
  thermistor2Fail : Bool
  hotPlate1PID : PIDLoop
  hotPlate2PID : PIDLoop
  pid_Setpoint : ℚ
  runningState : ℕ
  runningSecondCounter : ℕ
  initTempSnapshot : ℚ
  parametersReflow : Fin 7 → ℕ

/-- readThermistor (main.cpp lines 831-904), with the converted channel
temperatures new1, new2 standing for the sampled and Steinhart-converted
values of lines 843-874. The fault section is embedded as written:
- line 882 reads if (thermistor1Buffer = steinhart1): a C assignment used
  as a condition; its value is the assigned temperature, so the branch is
  taken exactly when the new reading is nonzero, and the buffer ends up
  holding the new reading, not the previous one;
- line 883 reads thermistor1FailCounter = thermistor1FailCounter++, which
  leaves the counter unchanged; the counter is an uninitialized local
  (lines 835-836), so its incoming value is arbitrary and is passed in as
  g1 / g2;
- lines 893-903 recompute both fail flags from scratch on every call. -/
def readThermistorUpd (g1 g2 : ℕ) (new1 new2 : ℚ) (s : Sys) : Sys :=
  let c1 : ℕ := if new1 ≠ 0 then g1 else 0
  let c2 : ℕ := if new2 ≠ 0 then g2 else 0
  { s with
    steinhart1 := new1
    steinhart2 := new2
    thermistor1Buffer := new1
    thermistor2Buffer := new2
    thermistor1Fail := if new1 < -20 ∨ 3 ≤ c1 then true else false
    thermistor2Fail := if new2 < -20 ∨ 3 ≤ c2 then true else false }

/-- Default reflow profile, main.cpp line 87:
T1, t1, T2, t2, T3, t3, reflow hold duration. -/
def parametersReflow_default : Fin 7 → ℕ := fun i =>
  [115, 100, 145, 155, 185, 180, 35].getD (i : ℕ) 0

/-- Default PID tuning constants, main.cpp line 88:
Kp1, Ki1, Kd1, Kp2, Ki2, Kd2 = 3.30, 0.02, 3.45, 3.30, 0.02, 3.45. -/
def parametersPID_default : Fin 6 → ℚ := fun i =>
  [33/10, 1/50, 69/20, 33/10, 1/50, 69/20].getD (i : ℕ) 0

/-- Setpoint computed by the switch of reflowRunning (main.cpp lines
928-959) for a given state and second counter value, in double arithmetic
(exact rationals here). States: 1 RAMP, 2 SOAK, 3 REFLOW RAMP, 4 REFLOW,
5 COOLING/COMPLETE. -/
def reflowSetpoint (p : Fin 7 → ℕ) (initTempSnapshot : ℚ) (st t : ℕ) : ℚ :=
  match st with
  | 1 => (((p 0 : ℚ) - initTempSnapshot) / (p 1 : ℚ) - 0) * (t : ℚ) + initTempSnapshot
  | 2 => (((p 2 : ℚ) - (p 0 : ℚ)) / ((p 3 : ℚ) - (p 1 : ℚ))) * ((t : ℚ) - (p 1 : ℚ)) + (p 0 : ℚ)
  | 3 => (((p 4 : ℚ) - (p 2 : ℚ)) / ((p 5 : ℚ) - (p 3 : ℚ))) * ((t : ℚ) - (p 3 : ℚ)) + (p 2 : ℚ)
  | 4 => (p 4 : ℚ)
  | _ => 0

/-- State transition of the same switch: each non-terminal state advances
when the second counter has reached its segment boundary (the >= guards at
main.cpp lines 931, 937, 943, 949); state 5 is terminal. -/
def reflowNextState (p : Fin 7 → ℕ) (st t : ℕ) : ℕ :=
  match st with
  | 1 => if p 1 ≤ t then 2 else 1
  | 2 => if p 3 ≤ t then 3 else 2
  | 3 => if p 5 ≤ t then 4 else 3
  | 4 => if p 5 + p 6 ≤ t then 5 else 4
  | st => st

/-- State of the reflow machine at elapsed second t, for a run started in
state 1 with counter 0 (main.cpp lines 1073-1078), with the switch
evaluated once per elapsed second: the state entering second t+1 is the
transition taken by the evaluation at second t. -/
def stateAt (p : Fin 7 → ℕ) (t : ℕ) : ℕ :=
  Nat.rec 1 (fun u ih => reflowNextState p ih u) t

/-- State trace for the default profile. -/
def stateAtDefault (t : ℕ) : ℕ := stateAt parametersReflow_default t

/-- Setpoint as a function of elapsed seconds for the default profile and
an initial temperature snapshot of 25 C, per the claim of spec section 8. -/
def setpointAtDefault (t : ℕ) : ℚ :=
  reflowSetpoint parametersReflow_default 25 (stateAtDefault t) t

/-- Field 0 (ramp target temperature) of the default profile. -/
lemma pd0 : parametersReflow_default 0 = 115 := rfl

/-- Field 1 (ramp duration) of the default profile. -/
lemma pd1 : parametersReflow_default 1 = 100 := rfl

/-- Field 2 (soak target temperature) of the default profile. -/
lemma pd2 : parametersReflow_default 2 = 145 := rfl

/-- Field 3 (soak duration) of the default profile. -/
lemma pd3 : parametersReflow_default 3 = 155 := rfl

/-- Field 4 (reflow target temperature) of the default profile. -/
lemma pd4 : parametersReflow_default 4 = 185 := rfl

/-- Field 5 (reflow duration) of the default profile. -/
lemma pd5 : parametersReflow_default 5 = 180 := rfl

/-- Field 6 (reflow hold duration) of the default profile. -/
lemma pd6 : parametersReflow_default 6 = 35 := rfl

/-- The run starts in state 1 (RAMP, main.cpp line 1077). -/
lemma stateAtDefault_zero : stateAtDefault 0 = 1 := rfl

/-- One unfolding of the per-second state trace. -/
lemma stateAtDefault_succ (t : ℕ) :
    stateAtDefault (t + 1) =
      reflowNextState parametersReflow_default (stateAtDefault t) t := rfl

/-- The machine stays in RAMP through second 100. -/
lemma stateAtDefault_ramp : ∀ t, t ≤ 100 → stateAtDefault t = 1 := by
  intro t
  induction t with
  | zero => intro _; rfl
  | succ n ih =>
    intro h
    rw [stateAtDefault_succ, ih (by omega)]
    simp only [reflowNextState, pd1]
    rw [if_neg (by omega)]

/-- The machine is in SOAK from second 101 through second 155. -/
lemma stateAtDefault_soak (t : ℕ) (h1 : 101 ≤ t) : t ≤ 155 → stateAtDefault t = 2 := by
  induction t, h1 using Nat.le_induction with
  | base =>
    intro _
    rw [show stateAtDefault 101 =
          reflowNextState parametersReflow_default (stateAtDefault 100) 100 from
        stateAtDefault_succ 100,
      stateAtDefault_ramp 100 le_rfl]
    simp only [reflowNextState, pd1]
    rw [if_pos (by omega)]
  | succ n hn ih =>
    intro h2
    rw [stateAtDefault_succ, ih (by omega)]
    simp only [reflowNextState, pd3]
    rw [if_neg (by omega)]

/-- The machine is in REFLOW RAMP from second 156 through second 180. -/
lemma stateAtDefault_rramp (t : ℕ) (h1 : 156 ≤ t) : t ≤ 180 → stateAtDefault t = 3 := by
  induction t, h1 using Nat.le_induction with
  | base =>
    intro _
    rw [show stateAtDefault 156 =
          reflowNextState parametersReflow_default (stateAtDefault 155) 155 from
        stateAtDefault_succ 155,
      stateAtDefault_soak 155 (by omega) le_rfl]
    simp only [reflowNextState, pd3]
    rw [if_pos (by omega)]
  | succ n hn ih =>
    intro h2
    rw [stateAtDefault_succ, ih (by omega)]
    simp only [reflowNextState, pd5]
    rw [if_neg (by omega)]

/-- The machine is in REFLOW (hold) from second 181 through second 215. -/
lemma stateAtDefault_hold (t : ℕ) (h1 : 181 ≤ t) : t ≤ 215 → stateAtDefault t = 4 := by
  induction t, h1 using Nat.le_induction with
  | base =>
    intro _
    rw [show stateAtDefault 181 =
          reflowNextState parametersReflow_default (stateAtDefault 180) 180 from
        stateAtDefault_succ 180,
      stateAtDefault_rramp 180 (by omega) le_rfl]
    simp only [reflowNextState, pd5]
    rw [if_pos (by omega)]
  | succ n hn ih =>
    intro h2
    rw [stateAtDefault_succ, ih (by omega)]
    simp only [reflowNextState, pd5, pd6]
    rw [if_neg (by omega)]

/-- The machine is in COOLING from second 216 on; state 5 is terminal. -/
lemma stateAtDefault_cooling (t : ℕ) (h1 : 216 ≤ t) : stateAtDefault t = 5 := by
  induction t, h1 using Nat.le_induction with
  | base =>
    rw [show stateAtDefault 216 =
          reflowNextState parametersReflow_default (stateAtDefault 215) 215 from
        stateAtDefault_succ 215,
      stateAtDefault_hold 215 (by omega) le_rfl]
    simp only [reflowNextState, pd5, pd6]
    rw [if_pos (by omega)]
  | succ n hn ih =>
    rw [stateAtDefault_succ, ih]
    rfl

/-- In state 4 (REFLOW hold) the setpoint is the reflow target temperature,
independent of t. -/
lemma reflowSetpoint_hold (t : ℕ) :
    reflowSetpoint parametersReflow_default 25 4 t = 185 := by
  simp only [reflowSetpoint, pd4]
  norm_num

/-- In state 5 (COOLING) the setpoint is forced to 0, independent of t. -/
lemma reflowSetpoint_cooling (t : ℕ) :
    reflowSetpoint parametersReflow_default 25 5 t = 0 := rfl

/-- C4: for the reflow profile (115, 100, 145, 155, 185, 180, 35) and
initial temperature snapshot 25 C, the setpoint of the reflow state machine
satisfies setpoint 0 = 25, setpoint 100 = 115, setpoint 155 = 145,
setpoint 180 = 185, setpoint t = 185 for 180 <= t < 215, and
setpoint t = 0 with state 5 (COOLING) for every t >= 216. -/
theorem c4_default_profile_setpoint_trajectory :
    setpointAtDefault 0 = 25 ∧ setpointAtDefault 100 = 115 ∧
    setpointAtDefault 155 = 145 ∧ setpointAtDefault 180 = 185 ∧
    (∀ t, 180 ≤ t → t < 215 → setpointAtDefault t = 185) ∧
    (∀ t, 216 ≤ t → setpointAtDefault t = 0 ∧ stateAtDefault t = 5) := by
  have h180 : setpointAtDefault 180 = 185 := by
    rw [setpointAtDefault, stateAtDefault_rramp 180 (by omega) le_rfl]
    simp only [reflowSetpoint, pd2, pd3, pd4, pd5]
    norm_num
  refine ⟨?_, ?_, ?_, h180, ?_, ?_⟩
  · rw [setpointAtDefault, stateAtDefault_zero]
    simp only [reflowSetpoint, pd0, pd1]
    norm_num
  · rw [setpointAtDefault, stateAtDefault_ramp 100 le_rfl]
    simp only [reflowSetpoint, pd0, pd1]
    norm_num
  · rw [setpointAtDefault, stateAtDefault_soak 155 (by omega) le_rfl]
    simp only [reflowSetpoint, pd0, pd1, pd2, pd3]
    norm_num
  · intro t h1 h2
    rcases Nat.eq_or_lt_of_le h1 with h | h
    · subst h
      exact h180
    · rw [setpointAtDefault, stateAtDefault_hold t (by omega) (by omega),
        reflowSetpoint_hold]
  · intro t h1
    refine ⟨?_, stateAtDefault_cooling t h1⟩
    rw [setpointAtDefault, stateAtDefault_cooling t h1, reflowSetpoint_cooling]

/-- Witness for C4 at the concrete seconds 200 and 300. -/
theorem c4_default_profile_setpoint_trajectory_witness :
    setpointAtDefault 200 = 185 ∧ setpointAtDefault 300 = 0 ∧ stateAtDefault 300 = 5 :=
  ⟨c4_default_profile_setpoint_trajectory.2.2.2.2.1 200 (by norm_num) (by norm_num),
   (c4_default_profile_setpoint_trajectory.2.2.2.2.2 300 (by norm_num)).1,
   (c4_default_profile_setpoint_trajectory.2.2.2.2.2 300 (by norm_num)).2⟩

/-- The switch of reflowRunning (main.cpp lines 928-960) as a state update:
cases 1 to 4 compute the setpoint for the current state and counter and
take the guarded transition; case 5 (COOLING / COMPLETE) forces the
setpoint to 0, forces both PID loops to MANUAL, and forces both outputs to
0 (lines 953-958); any other value falls through the switch unchanged. -/
def reflowSwitchStep (s : Sys) : Sys :=
  match s.runningState with
  | 1 => { s with
      pid_Setpoint := reflowSetpoint s.parametersReflow s.initTempSnapshot 1 s.runningSecondCounter
      runningState := reflowNextState s.parametersReflow 1 s.runningSecondCounter }
  | 2 => { s with
      pid_Setpoint := reflowSetpoint s.parametersReflow s.initTempSnapshot 2 s.runningSecondCounter
      runningState := reflowNextState s.parametersReflow 2 s.runningSecondCounter }
  | 3 => { s with
      pid_Setpoint := reflowSetpoint s.parametersReflow s.initTempSnapshot 3 s.runningSecondCounter
      runningState := reflowNextState s.parametersReflow 3 s.runningSecondCounter }
  | 4 => { s with
      pid_Setpoint := reflowSetpoint s.parametersReflow s.initTempSnapshot 4 s.runningSecondCounter
      runningState := reflowNextState s.parametersReflow 4 s.runningSecondCounter }
  | 5 => { s with
      pid_Setpoint := 0
      hotPlate1PID := { mode := PidMode.manual, output := 0 }
      hotPlate2PID := { mode := PidMode.manual, output := 0 } }
  | _ => s

/-- pidLoop1 (main.cpp lines 244-248): feed steinhart1 into the loop input,
run Compute, and write the loop output to the PWM pin of zone 1. The
returned rational is the duty value passed to analogWrite. -/
def pidLoop1 (f : ℚ → ℚ → ℚ → ℚ) (s : Sys) : Sys × ℚ :=
  let p := PID_Compute f s.steinhart1 s.pid_Setpoint s.hotPlate1PID
  ({ s with hotPlate1PID := p }, p.output)

/-- pidLoop2 (main.cpp lines 250-254), zone 2. -/
def pidLoop2 (f : ℚ → ℚ → ℚ → ℚ) (s : Sys) : Sys × ℚ :=
  let p := PID_Compute f s.steinhart2 s.pid_Setpoint s.hotPlate2PID
  ({ s with hotPlate2PID := p }, p.output)

/-- Per-tick inputs of the running logic: the two converted thermistor
temperatures of this tick, the arbitrary incoming values of the two
uninitialized fail counters, whether the 1-second timer elapsed on this
tick (millis comparison at line 920), and the two Compute oracles. -/
structure TickIn where
  newTemp1 : ℚ
  newTemp2 : ℚ
  g1 : ℕ
  g2 : ℕ
  secondElapsed : Bool
  f1 : ℚ → ℚ → ℚ → ℚ
  f2 : ℚ → ℚ → ℚ → ℚ

/-- Result of one running tick: the new global state and the two duty
values written to the PWM pins. -/
structure TickOut where
  sys : Sys
  pwm1 : ℚ
  pwm2 : ℚ

/-- reflowRunning (main.cpp lines 909-965), one control tick in reflow
profile mode: read the thermistors, force both PID loops to AUTOMATIC
(lines 915-916), advance the second counter when the 1-second timer has
elapsed and the state is below 5 (lines 919-926), run the switch, then run
both PID loops and write their outputs to the PWM pins. Nothing in this
path inspects thermistor1Fail or thermistor2Fail. -/
def reflowRunning (u : TickIn) (s : Sys) : TickOut :=
  let s1 := readThermistorUpd u.g1 u.g2 u.newTemp1 u.newTemp2 s
  let s2 := { s1 with
    hotPlate1PID := PID_SetMode PidMode.automatic s1.hotPlate1PID
    hotPlate2PID := PID_SetMode PidMode.automatic s1.hotPlate2PID }
  let s3 := if s2.runningState < 5 ∧ u.secondElapsed = true then
    { s2 with runningSecondCounter := s2.runningSecondCounter + 1 } else s2
  let s4 := reflowSwitchStep s3
  let r1 := pidLoop1 u.f1 s4
  let r2 := pidLoop2 u.f2 r1.1
  ⟨r2.1, r1.2, r2.2⟩

/-- A reference state used as the concrete starting point of the evaluated
counterexamples: a freshly started reflow run (state 1, counter 0, snapshot
25 C, default profile), previous converted readings 50 C, no fault flags. -/
def sRun : Sys where
  steinhart1 := 50
  steinhart2 := 50
  thermistor1Buffer := 0
  thermistor2Buffer := 0
  thermistor1Fail := false
  thermistor2Fail := false
  hotPlate1PID := { mode := PidMode.automatic, output := 0 }
  hotPlate2PID := { mode := PidMode.automatic, output := 0 }
  pid_Setpoint := 0
  runningState := 1
  runningSecondCounter := 0
  initTempSnapshot := 25
  parametersReflow := parametersReflow_default

/-- Tick inputs for the C1 evaluation: thermistor 1 converts to -30 C on
this tick (raising its fault flag), thermistor 2 stays at 50 C, the
1-second timer has not elapsed, and the abstracted control law would
produce a duty of 200 on both zones. -/
def uFault : TickIn where
  newTemp1 := -30
  newTemp2 := 50
  g1 := 0
  g2 := 0
  secondElapsed := false
  f1 := fun _ _ _ => 200
  f2 := fun _ _ _ => 200

/-- C1: refuted on the code. On a tick of an active reflow run in which
thermistor 1 faults (reading -30 C), reflowRunning still runs both PID
loops in AUTOMATIC and writes the computed duty 200 to both PWM pins: the
fault flag does not force the actuator outputs to 0 in that tick, contrary
to the claim and to the source comment at main.cpp line 880. -/
theorem c1_fault_does_not_force_outputs_zero :
    (reflowRunning uFault sRun).sys.thermistor1Fail = true ∧
    (reflowRunning uFault sRun).pwm1 = 200 ∧
    (reflowRunning uFault sRun).pwm2 = 200 :=
  ⟨rfl, rfl, rfl⟩

/-- C2: refuted on the code (the sentinel bug of spec section 9). With the
previous converted reading at 50 C, a new in-range and different reading of
100 C, and the uninitialized local fail counter happening to hold 3, the
fault flag is raised after a single acquisition: the stuck test at main.cpp
line 882 is an assignment, not a comparison, so the flag is not the claimed
if-and-only-if of (temperature below -20 C) or (3 consecutive identical
readings). -/
theorem c2_stuck_test_is_assignment_bug :
    (readThermistorUpd 3 0 100 25 sRun).thermistor1Fail = true ∧
    sRun.steinhart1 = 50 ∧ ¬((100 : ℚ) < -20) ∧ (100 : ℚ) ≠ 50 :=
  ⟨rfl, rfl, by decide, by decide⟩

/-- C3 counterexample: a fault flag raised during a run is not latched. A
call converting to -30 C raises the flag; the immediately following call
converting to 25 C clears it again, with no operator stop or restart in
between. -/
theorem c3_fault_flag_not_latched :
    (readThermistorUpd 0 0 (-30) (-30) sRun).thermistor1Fail = true ∧
    (readThermistorUpd 0 0 25 25 (readThermistorUpd 0 0 (-30) (-30) sRun)).thermistor1Fail
      = false :=
  ⟨rfl, rfl⟩

/-- C3 amended: readThermistor recomputes the fault flags from scratch on
every call, so whatever the previous state (including a previously raised
flag), a call whose converted temperature is at least -20 C and whose
incoming fail-counter value is below 3 leaves the flag cleared: the flag
clears automatically, without the operator stopping and restarting. -/
theorem c3_flag_recomputed_each_read (s : Sys) (g1 g2 : ℕ) (n1 n2 : ℚ)
    (h1 : -20 ≤ n1) (h2 : g1 < 3) :
    (readThermistorUpd g1 g2 n1 n2 s).thermistor1Fail = false := by
  have hc : ¬(n1 < -20 ∨ 3 ≤ (if n1 ≠ 0 then g1 else 0)) := by
    push_neg
    refine ⟨by linarith, ?_⟩
    split <;> omega
  simp only [readThermistorUpd, if_neg hc]

/-- Witness for C3 amended at a concrete post-fault state. -/
theorem c3_flag_recomputed_each_read_witness :
    (readThermistorUpd 0 0 25 25 sRun).thermistor1Fail = false :=
  c3_flag_recomputed_each_read sRun 0 0 25 25 (by norm_num) (by norm_num)

/-- C5: whenever the state machine is in COOLING (runningState 5) at the
start of a control tick, then at the end of that tick the setpoint is 0,
both PID loops are in MANUAL mode, both loop outputs are 0, and both PWM
duty values written are 0, for all input temperatures and all behaviors of
the abstracted control law. -/
theorem c5_cooling_forces_outputs_zero (s : Sys) (u : TickIn)
    (h : s.runningState = 5) :
    (reflowRunning u s).sys.pid_Setpoint = 0 ∧
    (reflowRunning u s).sys.hotPlate1PID.mode = PidMode.manual ∧
    (reflowRunning u s).sys.hotPlate2PID.mode = PidMode.manual ∧
    (reflowRunning u s).sys.hotPlate1PID.output = 0 ∧
    (reflowRunning u s).sys.hotPlate2PID.output = 0 ∧
    (reflowRunning u s).pwm1 = 0 ∧
    (reflowRunning u s).pwm2 = 0 := by
  simp only [reflowRunning, readThermistorUpd, PID_SetMode, h]
  norm_num [reflowSwitchStep, pidLoop1, pidLoop2, PID_Compute]

/-- Witness for C5: a concrete COOLING-state tick. -/
theorem c5_cooling_forces_outputs_zero_witness :
    (reflowRunning uFault { sRun with runningState := 5 }).sys.pid_Setpoint = 0 ∧
    (reflowRunning uFault { sRun with runningState := 5 }).sys.hotPlate1PID.mode
      = PidMode.manual ∧
    (reflowRunning uFault { sRun with runningState := 5 }).sys.hotPlate2PID.mode
      = PidMode.manual ∧
    (reflowRunning uFault { sRun with runningState := 5 }).sys.hotPlate1PID.output = 0 ∧
    (reflowRunning uFault { sRun with runningState := 5 }).sys.hotPlate2PID.output = 0 ∧
    (reflowRunning uFault { sRun with runningState := 5 }).pwm1 = 0 ∧
    (reflowRunning uFault { sRun with runningState := 5 }).pwm2 = 0 :=
  c5_cooling_forces_outputs_zero { sRun with runningState := 5 } uFault rfl

/-- Kp1 default value. -/
lemma qd0 : parametersPID_default 0 = 33/10 := rfl

/-- Tuning constants held inside one PID_v1 object. The constructor call at
main.cpp line 111 passes parametersPID[0], [1], [2] as plain double
arguments, so the object stores copies taken at construction; Compute reads
these stored members, and main.cpp never calls SetTunings afterwards. -/
structure PIDTunings where
  kp : ℚ
  ki : ℚ
  kd : ℚ

/-- Construction-time tuning copy for hotPlate1PID (main.cpp line 111). -/
def hotPlate1PID_ctor (p : Fin 6 → ℚ) : PIDTunings := ⟨p 0, p 1, p 2⟩

/-- Construction-time tuning copy for hotPlate2PID (main.cpp line 112). -/
def hotPlate2PID_ctor (p : Fin 6 → ℚ) : PIDTunings := ⟨p 3, p 4, p 5⟩

/-- The tuning-related state: the parametersPID array and the tunings held
by the two constructed PID objects. -/
structure TuningSys where
  parametersPID : Fin 6 → ℚ
  hotPlate1PIDTunings : PIDTunings
  hotPlate2PIDTunings : PIDTunings

/-- The state right after global construction with the default constants of
main.cpp line 88. -/
def bootTuningSys : TuningSys :=
  ⟨parametersPID_default, hotPlate1PID_ctor parametersPID_default,
    hotPlate2PID_ctor parametersPID_default⟩

/-- calcParameters, menuIndex == 4 branch (main.cpp lines 218-230): stage
wrkDouble = selectCounter * 0.01 + parametersPID[menuCounter-1], clamped
below at 0; on encSW commit it into parametersPID. The branch writes only
parametersPID and the staging variables; it performs no call on the PID
objects. -/
def calcParametersPIDStep (selectCounter : ℤ) (i : Fin 6) (encSW : Bool)
    (s : TuningSys) : TuningSys :=
  let w0 : ℚ := (selectCounter : ℚ) * (1/100) + s.parametersPID i
  let w : ℚ := if w0 < 0 then 0 else w0
  if encSW then { s with parametersPID := Function.update s.parametersPID i w } else s

/-- C6 counterexample: from the boot state, commit an edit of Kp1 by +100
detents (+1.00). parametersPID[0] becomes 4.30, but the tunings stored in
hotPlate1PID are still the construction-time 3.30, so the loop does not use
the committed value on the next tick. -/
theorem c6_committed_edit_not_seen_by_pid :
    (calcParametersPIDStep 100 0 true bootTuningSys).parametersPID 0 = 43/10 ∧
    (calcParametersPIDStep 100 0 true bootTuningSys).hotPlate1PIDTunings.kp = 33/10 ∧
    (calcParametersPIDStep 100 0 true bootTuningSys).hotPlate1PIDTunings.kp ≠
      (calcParametersPIDStep 100 0 true bootTuningSys).parametersPID 0 := by
  norm_num [calcParametersPIDStep, bootTuningSys, hotPlate1PID_ctor, qd0,
    Function.update_same]

/-- C6 amended: a committed PID tuning edit updates only the parametersPID
array; the tunings held by both PID objects are unchanged by calcParameters
(and by anything else after construction), so the loops keep using the
construction-time Kp, Ki, Kd. -/
theorem c6_pid_objects_keep_construction_tunings (selectCounter : ℤ) (i : Fin 6)
    (encSW : Bool) (s : TuningSys) :
    (calcParametersPIDStep selectCounter i encSW s).hotPlate1PIDTunings =
      s.hotPlate1PIDTunings ∧
    (calcParametersPIDStep selectCounter i encSW s).hotPlate2PIDTunings =
      s.hotPlate2PIDTunings := by
  cases encSW <;> simp [calcParametersPIDStep]

/-- Element i of the uint8_t array read of readUInt8TArrayFromEEPROM
(main.cpp lines 182-190): one byte per element, starting at address. -/
def readUInt8TArrayFromEEPROM (ee : ℕ → ℕ) (address i : ℕ) : ℕ :=
  ee (address + i)

/-- Element i of the int array read of readIntArrayFromEEPROM (main.cpp
lines 192-200): (read(a) << 8) + read(a+1), evaluated in the 16-bit int
type after promotion of the uint8_t operands; shifting a byte of 128..255
left by 8 leaves the int16 range and wraps on the avr-gcc target, hence the
wrap16 reduction. -/
def readIntArrayFromEEPROM (ee : ℕ → ℕ) (address i : ℕ) : ℤ :=
  wrap16 ((ee (address + 2 * i) : ℤ) * 256 + (ee (address + 2 * i + 1) : ℤ))

/-- setup, main.cpp lines 1012-1015: parametersReflow[i] is overwritten
with the byte read from EEPROM address 1 + i, unconditionally. -/
def setupParametersReflow (ee : ℕ → ℕ) : Fin 7 → ℕ := fun i =>
  readUInt8TArrayFromEEPROM ee 1 i

/-- setup, main.cpp lines 1016-1020: parametersPID[i] is overwritten with
the int16 read from EEPROM address 8 + 2i divided by 100, unconditionally. -/
def setupParametersPID (ee : ℕ → ℕ) : Fin 6 → ℚ := fun i =>
  (readIntArrayFromEEPROM ee 8 i : ℚ) / 100

/-- A factory-fresh (uninitialized) AVR EEPROM: every byte reads 0xFF. -/
def erasedEEPROM : ℕ → ℕ := fun _ => 255

/-- C7 counterexample: on first boot with an uninitialized store, setup
adopts the read-back bytes instead of falling back to the defaults:
parametersReflow[0] becomes 255 (default 115) and parametersPID[0] becomes
-0.01 (default 3.30). -/
theorem c7_first_boot_adopts_eeprom_bytes :
    setupParametersReflow erasedEEPROM 0 = 255 ∧
    setupParametersPID erasedEEPROM 0 = -(1/100) ∧
    setupParametersReflow erasedEEPROM 0 ≠ parametersReflow_default 0 ∧
    setupParametersPID erasedEEPROM 0 ≠ parametersPID_default 0 := by
  norm_num [setupParametersReflow, setupParametersPID, readUInt8TArrayFromEEPROM,
    readIntArrayFromEEPROM, erasedEEPROM, wrap16, pd0, qd0]

/-- C7 amended: setup performs no validation and no fallback: with an
uninitialized store every profile field loads as 255 and every PID tuning
constant loads as -0.01, for all field indices. -/
theorem c7_setup_adopts_all_erased_bytes (i : Fin 7) (j : Fin 6) :
    setupParametersReflow erasedEEPROM i = 255 ∧
    setupParametersPID erasedEEPROM j = -(1/100) := by
  constructor
  · rfl
  · norm_num [setupParametersPID, readIntArrayFromEEPROM, erasedEEPROM, wrap16]

/-- Reduction of the int16 wrap followed by the uint8_t conversion: the
composite is reduction mod 256, because 256 divides 65536. -/
lemma uint8ofInt_wrap16 (z : ℤ) : uint8ofInt (wrap16 z) = (z % 256).toNat := by
  unfold uint8ofInt wrap16
  congr 1
  omega

/-- calcParameters, menuIndex == 3 branch (main.cpp lines 207-216): stage
wrkInt = selectCounter + parametersReflow[menuCounter-1] (an int sum
truncated into the uint8_t wrkInt); on encSW commit it into the profile
array and zero selectCounter. -/
def calcParametersReflowStep (selectCounter : ℤ) (i : Fin 7) (encSW : Bool)
    (p : Fin 7 → ℕ) : (Fin 7 → ℕ) × ℤ :=
  let w : ℕ := uint8ofInt (wrap16 (selectCounter + (p i : ℤ)))
  if encSW then (Function.update p i w, 0) else (p, selectCounter)

/-- calcParameters, menuIndex == 98 branch (main.cpp lines 232-241): the
same staging for the constant-temperature setpoint constTempSP. -/
def calcParametersConstStep (selectCounter : ℤ) (encSW : Bool)
    (constTempSP : ℕ) : ℕ × ℤ :=
  let w : ℕ := uint8ofInt (wrap16 (selectCounter + (constTempSP : ℤ)))
  if encSW then (w, 0) else (constTempSP, selectCounter)

/-- C10: every committed edit of a reflow profile field, and of the
constant-temperature setpoint, stores (old value + selectCounter) mod 256:
the 8-bit working value wraps around instead of saturating or rejecting. -/
theorem c10_committed_edit_wraps_mod_256 (selectCounter : ℤ) (i : Fin 7)
    (p : Fin 7 → ℕ) (c : ℕ) :
    (calcParametersReflowStep selectCounter i true p).1 i =
      (((p i : ℤ) + selectCounter) % 256).toNat ∧
    (calcParametersConstStep selectCounter true c).1 =
      (((c : ℤ) + selectCounter) % 256).toNat := by
  constructor
  · simp only [calcParametersReflowStep, if_true, Function.update_same,
      uint8ofInt_wrap16, Int.add_comm selectCounter]
  · simp only [calcParametersConstStep, if_true, uint8ofInt_wrap16,
      Int.add_comm selectCounter]

/-- The shared state touched by a staged profile edit: the volatile
selectCounter mutated by the encoder ISRs (main.cpp line 68), the edited
profile cell, and the staging variable wrkInt. -/
structure EncShared where
  selectCounter : ℤ
  parametersReflow0 : ℕ
  wrkInt : ℕ

/-- One encoder event with selectFlag set (isrEncCLK / isrEncDT, main.cpp
lines 127-128 and 146-147): the ISR adds the detent delta to
selectCounter. The ISRs are attached with attachInterrupt (lines
1005-1006) and may fire between any two statements of calcParameters,
which contains no noInterrupts section (lines 205-242). -/
def isrEncAdd (d : ℤ) (s : EncShared) : EncShared :=
  { s with selectCounter := s.selectCounter + d }

/-- The read half of the menuIndex == 3 branch of calcParameters (main.cpp
line 208): read selectCounter and stage the working value. -/
def calcParametersReadStage (s : EncShared) : EncShared :=
  { s with wrkInt := uint8ofInt (wrap16 (s.selectCounter + (s.parametersReflow0 : ℤ))) }

/-- The commit half of the same branch when encSW is pressed (main.cpp
lines 211-212): store wrkInt into the profile cell and zero selectCounter. -/
def calcParametersCommitStage (s : EncShared) : EncShared :=
  { s with parametersReflow0 := s.wrkInt, selectCounter := 0 }

/-- The interleaved execution: an encoder increment fires between the read
at main.cpp line 208 and the clear at line 212, starting from
selectCounter = 2, profile cell = 10. -/
def encTraceInterleaved : EncShared :=
  calcParametersCommitStage (isrEncAdd 1 (calcParametersReadStage ⟨2, 10, 0⟩))

/-- Serialization of the same events with the increment before the whole
read-and-clear. -/
def encTraceIsrFirst : EncShared :=
  calcParametersCommitStage (calcParametersReadStage (isrEncAdd 1 ⟨2, 10, 0⟩))

/-- Serialization of the same events with the increment after the whole
read-and-clear. -/
def encTraceIsrLast : EncShared :=
  isrEncAdd 1 (calcParametersCommitStage (calcParametersReadStage ⟨2, 10, 0⟩))

/-- C9 counterexample: the increment delivered between the read and the
clear is lost: the interleaved execution commits 12 and leaves the counter
at 0, while the two atomic serializations of the same events give (13, 0)
and (12, 1); the interleaving matches neither. -/
theorem c9_interleaved_read_clear_loses_increment :
    encTraceInterleaved.parametersReflow0 = 12 ∧
    encTraceInterleaved.selectCounter = 0 ∧
    encTraceInterleaved ≠ encTraceIsrFirst ∧
    encTraceInterleaved ≠ encTraceIsrLast := by
  refine ⟨rfl, rfl, ?_, ?_⟩ <;>
    simp [encTraceInterleaved, encTraceIsrFirst, encTraceIsrLast,
      calcParametersCommitStage, calcParametersReadStage, isrEncAdd,
      uint8ofInt, wrap16, EncShared.mk.injEq]

/-- C9 amended: calcParameters reads and zeroes selectCounter with
interrupts enabled, so an encoder delta d delivered between the read and
the clear has no effect at all on the final state: the committed value and
the cleared counter are identical to the execution in which the delta never
happened. (The main loop read of menuCounter at lines 1058-1060 is, by
contrast, wrapped in noInterrupts / interrupts.) -/
theorem c9_increment_between_read_and_clear_lost (s : EncShared) (d : ℤ) :
    calcParametersCommitStage (isrEncAdd d (calcParametersReadStage s)) =
      calcParametersCommitStage (calcParametersReadStage s) := rfl

/-- Remaining default PID constants, used to discharge witness bounds. -/
lemma qd1 : parametersPID_default 1 = 1/50 := rfl

/-- Kd1 default value. -/
lemma qd2 : parametersPID_default 2 = 69/20 := rfl

/-- Kp2 default value. -/
lemma qd3 : parametersPID_default 3 = 33/10 := rfl

/-- Ki2 default value. -/
lemma qd4 : parametersPID_default 4 = 1/50 := rfl

/-- Kd2 default value. -/
lemma qd5 : parametersPID_default 5 = 69/20 := rfl

/-- EEPROM.update of one byte cell: the written int argument is converted
to the uint8_t cell width (mod 256). -/
def eepromUpdate (ee : ℕ → ℕ) (address b : ℕ) : ℕ → ℕ :=
  fun x => if x = address then b % 256 else ee x

/-- writeUInt8TArrayIntoEEPROM (main.cpp lines 161-169): one byte per
element, consecutive addresses. -/
def writeUInt8TArrayIntoEEPROM : ℕ → List ℕ → (ℕ → ℕ) → (ℕ → ℕ)
  | _, [], ee => ee
  | address, x :: xs, ee =>
      writeUInt8TArrayIntoEEPROM (address + 1) xs (eepromUpdate ee address x)

/-- writeIntArrayIntoEEPROM (main.cpp lines 171-180): for each int16
element, the high byte numbers[i] >> 8 (arithmetic shift, equal to floor
division by 256, which for the positive divisor is the Euclidean division
of the integers) at the even address and the low byte numbers[i] & 0xFF at
the odd address. -/
def writeIntArrayIntoEEPROM : ℕ → List ℤ → (ℕ → ℕ) → (ℕ → ℕ)
  | _, [], ee => ee
  | address, n :: ns, ee =>
      writeIntArrayIntoEEPROM (address + 2) ns
        (eepromUpdate (eepromUpdate ee address (uint8ofInt (n / 256)))
          (address + 1) (uint8ofInt n))

/-- The conversion of the PID constants for storage (main.cpp lines
402-404): parametersPIDint[i] = parametersPID[i] * 100, a double-to-int16
conversion per element; the whole vector conversion fails (is undefined) as
soon as one element leaves the int16 range. -/
def collectPIDInts : List ℚ → Option (List ℤ)
  | [] => some []
  | v :: vs =>
    match doubleToInt16 (v * 100), collectPIDInts vs with
    | some n, some ns => some (n :: ns)
    | _, _ => none

/-- Save Configuration (updateCursorPosition case 5, main.cpp lines
400-405): write the 7 profile bytes at address 1, convert the 6 PID
constants to int16 as value*100, and write them as byte pairs at address 8. -/
def saveConfiguration (profile : Fin 7 → ℕ) (pid : Fin 6 → ℚ) (ee : ℕ → ℕ) :
    Option (ℕ → ℕ) :=
  match collectPIDInts (List.ofFn pid) with
  | none => none
  | some ns =>
      some (writeIntArrayIntoEEPROM 8 ns
        (writeUInt8TArrayIntoEEPROM 1 (List.ofFn profile) ee))

/-- A uint8ofInt value is always a byte. -/
lemma uint8ofInt_lt (z : ℤ) : uint8ofInt z < 256 := by
  unfold uint8ofInt
  omega

/-- The byte-array write leaves every address outside its range untouched. -/
lemma writeUInt8_outside (xs : List ℕ) : ∀ address ee x,
    (x < address ∨ address + xs.length ≤ x) →
    writeUInt8TArrayIntoEEPROM address xs ee x = ee x := by
  induction xs with
  | nil => intro a ee x h; rfl
  | cons y ys ih =>
    intro a ee x h
    have hlen : x < a ∨ a + ys.length + 1 ≤ x := by
      rcases h with h | h
      · exact Or.inl h
      · right
        simp only [List.length_cons] at h
        omega
    simp only [writeUInt8TArrayIntoEEPROM]
    rw [ih (a + 1) _ x (by omega)]
    have hx : x ≠ a := by omega
    simp only [eepromUpdate, if_neg hx]

/-- The byte-array write stores element i (reduced to a byte) at
address + i. -/
lemma writeUInt8_at (xs : List ℕ) : ∀ address ee i, i < xs.length →
    writeUInt8TArrayIntoEEPROM address xs ee (address + i) = xs.getD i 0 % 256 := by
  induction xs with
  | nil => intro a ee i h; simp at h
  | cons y ys ih =>
    intro a ee i h
    simp only [writeUInt8TArrayIntoEEPROM]
    cases i with
    | zero =>
      rw [writeUInt8_outside ys (a + 1) _ (a + 0) (Or.inl (by omega))]
      simp only [eepromUpdate, if_pos (by omega : a + 0 = a), List.getD_cons_zero]
    | succ j =>
      have hi : a + (j + 1) = (a + 1) + j := by omega
      have hj : j < ys.length := by
        simp only [List.length_cons] at h
        omega
      rw [hi, ih (a + 1) _ j hj]
      simp only [List.getD_cons_succ]

/-- The int16-array write leaves every address outside its range untouched. -/
lemma writeInt_outside (ns : List ℤ) : ∀ address ee x,
    (x < address ∨ address + 2 * ns.length ≤ x) →
    writeIntArrayIntoEEPROM address ns ee x = ee x := by
  induction ns with
  | nil => intro a ee x h; rfl
  | cons n ms ih =>
    intro a ee x h
    have hlen : x < a ∨ a + 2 * ms.length + 2 ≤ x := by
      rcases h with h | h
      · exact Or.inl h
      · right
        simp only [List.length_cons] at h
        omega
    simp only [writeIntArrayIntoEEPROM]
    rw [ih (a + 2) _ x (by omega)]
    simp only [eepromUpdate, if_neg (by omega : x ≠ a + 1), if_neg (by omega : x ≠ a)]

/-- The int16-array write stores the high byte of element i at
address + 2i. -/
lemma writeInt_at_hi (ns : List ℤ) : ∀ address ee i, i < ns.length →
    writeIntArrayIntoEEPROM address ns ee (address + 2 * i) =
      uint8ofInt (ns.getD i 0 / 256) := by
  induction ns with
  | nil => intro a ee i h; simp at h
  | cons n ms ih =>
    intro a ee i h
    simp only [writeIntArrayIntoEEPROM]
    cases i with
    | zero =>
      rw [writeInt_outside ms (a + 2) _ (a + 2 * 0) (Or.inl (by omega))]
      simp only [eepromUpdate, if_neg (by omega : a + 2 * 0 ≠ a + 1),
        if_pos (by omega : a + 2 * 0 = a), List.getD_cons_zero]
      exact Nat.mod_eq_of_lt (uint8ofInt_lt _)
    | succ j =>
      have hi : a + 2 * (j + 1) = (a + 2) + 2 * j := by omega
      have hj : j < ms.length := by
        simp only [List.length_cons] at h
        omega
      rw [hi, ih (a + 2) _ j hj]
      simp only [List.getD_cons_succ]

/-- The int16-array write stores the low byte of element i at
address + 2i + 1. -/
lemma writeInt_at_lo (ns : List ℤ) : ∀ address ee i, i < ns.length →
    writeIntArrayIntoEEPROM address ns ee (address + 2 * i + 1) =
      uint8ofInt (ns.getD i 0) := by
  induction ns with
  | nil => intro a ee i h; simp at h
  | cons n ms ih =>
    intro a ee i h
    simp only [writeIntArrayIntoEEPROM]
    cases i with
    | zero =>
      rw [writeInt_outside ms (a + 2) _ (a + 2 * 0 + 1) (Or.inl (by omega))]
      simp only [eepromUpdate, if_pos (by omega : a + 2 * 0 + 1 = a + 1),
        List.getD_cons_zero]
      exact Nat.mod_eq_of_lt (uint8ofInt_lt _)
    | succ j =>
      have hi : a + 2 * (j + 1) + 1 = (a + 2) + 2 * j + 1 := by omega
      have hj : j < ms.length := by
        simp only [List.length_cons] at h
        omega
      rw [hi, ih (a + 2) _ j hj]
      simp only [List.getD_cons_succ]

/-- When every constant is in range, the vector conversion succeeds and
yields the truncations of value*100. -/
lemma collectPIDInts_some (l : List ℚ) (h : ∀ v ∈ l, 0 ≤ v ∧ v * 100 ≤ 32767) :
    collectPIDInts l = some (l.map fun v => rtrunc (v * 100)) := by
  induction l with
  | nil => rfl
  | cons v vs ih =>
    obtain ⟨hv0, hv1⟩ := h v (by simp)
    have h0 : (0 : ℚ) ≤ v * 100 := mul_nonneg hv0 (by norm_num)
    have hrt : rtrunc (v * 100) = ⌊v * 100⌋ := by rw [rtrunc, if_pos h0]
    have hd : doubleToInt16 (v * 100) = some (rtrunc (v * 100)) := by
      rw [doubleToInt16, if_pos]
      rw [hrt]
      have h1 : (0 : ℤ) ≤ ⌊v * 100⌋ := Int.floor_nonneg.mpr h0
      have h2 : (⌊v * 100⌋ : ℚ) ≤ 32767 := le_trans (Int.floor_le _) hv1
      exact ⟨by omega, by exact_mod_cast h2⟩
    simp only [collectPIDInts, hd, ih (fun w hw => h w (by simp [hw])), List.map_cons]

/-- C8 counterexample: for the all-328 tuning set (nonnegative), the save
path itself is already broken: 328 * 100 = 32800 does not fit the 16-bit
int of parametersPIDint, so the double-to-int conversion at main.cpp line
403 has no defined result and the claimed roundtrip does not exist. -/
theorem c8_save_overflows_int16 :
    saveConfiguration parametersReflow_default (fun _ => 328) (fun _ => 0) = none := by
  have hrt : rtrunc ((328 : ℚ) * 100) = 32800 := by
    rw [rtrunc, if_pos (by norm_num),
      show ((328 : ℚ) * 100) = ((32800 : ℤ) : ℚ) by norm_num, Int.floor_intCast]
  have hd : doubleToInt16 ((328 : ℚ) * 100) = none := by
    rw [doubleToInt16, hrt, if_neg (by norm_num)]
  rw [saveConfiguration,
    show List.ofFn (fun _ : Fin 6 => (328 : ℚ)) = [328, 328, 328, 328, 328, 328] from rfl]
  simp only [collectPIDInts, hd]

/-- getD of an ofFn list at the image of a Fin index is the function value. -/
lemma getD_ofFn {n : ℕ} {α : Type} (f : Fin n → α) (d : α) (i : Fin n) :
    (List.ofFn f).getD (i : ℕ) d = f i := by
  rw [List.getD_eq_getElem (List.ofFn f) d (by simp), List.getElem_ofFn]

/-- getD of a mapped ofFn list at the image of a Fin index. -/
lemma getD_map_ofFn {n : ℕ} (g : ℚ → ℤ) (f : Fin n → ℚ) (j : Fin n) :
    ((List.ofFn f).map g).getD (j : ℕ) 0 = g (f j) := by
  rw [List.getD_eq_getElem _ 0 (by simp), List.getElem_map, List.getElem_ofFn]

/-- Reading one profile byte back through both write passes of the save:
the int16 pass starts at address 8 and never touches addresses 1..7. -/
lemma savedStore_profile (xs : List ℕ) (ns : List ℤ) (ee : ℕ → ℕ) (i : ℕ)
    (hi : i < xs.length) (h8 : 1 + xs.length ≤ 8) (hx : xs.getD i 0 < 256) :
    writeIntArrayIntoEEPROM 8 ns (writeUInt8TArrayIntoEEPROM 1 xs ee) (1 + i) =
      xs.getD i 0 := by
  rw [writeInt_outside ns 8 _ (1 + i) (Or.inl (by omega)),
    writeUInt8_at xs 1 ee i hi]
  exact Nat.mod_eq_of_lt hx

/-- Reading one stored int16 element back: its two bytes reassemble to the
stored value whenever that value lies in [0, 32767]. -/
lemma savedStore_int (xs : List ℕ) (ns : List ℤ) (ee : ℕ → ℕ) (j : ℕ) (n : ℤ)
    (hj : j < ns.length) (hn : ns.getD j 0 = n) (h0 : 0 ≤ n) (h1 : n ≤ 32767) :
    readIntArrayFromEEPROM
      (writeIntArrayIntoEEPROM 8 ns (writeUInt8TArrayIntoEEPROM 1 xs ee)) 8 j = n := by
  simp only [readIntArrayFromEEPROM]
  rw [writeInt_at_hi ns 8 _ j hj, writeInt_at_lo ns 8 _ j hj, hn]
  unfold uint8ofInt wrap16
  have e1 : (0 : ℤ) ≤ n % 256 := Int.emod_nonneg n (by norm_num)
  have d0 : (0 : ℤ) ≤ n / 256 := Int.ediv_nonneg h0 (by norm_num)
  have d1 : n / 256 < 256 := (Int.ediv_lt_iff_lt_mul (by norm_num)).mpr (by linarith)
  rw [Int.emod_eq_of_lt d0 d1, Int.toNat_of_nonneg d0, Int.toNat_of_nonneg e1]
  have hsplit : n / 256 * 256 + n % 256 = n := by
    have h2 := Int.ediv_add_emod n 256
    linarith
  rw [hsplit, Int.emod_eq_of_lt (by linarith) (by linarith)]
  exact Int.add_sub_cancel n 32768

/-- The fixed-point truncation error is strictly below 0.01. -/
lemma floor_div100_err (v : ℚ) : |v - (⌊v * 100⌋ : ℚ) / 100| < 1/100 := by
  have hfl : (⌊v * 100⌋ : ℚ) ≤ v * 100 := Int.floor_le _
  have hfl2 : v * 100 - 1 < (⌊v * 100⌋ : ℚ) := Int.sub_one_lt_floor _
  rw [abs_sub_lt_iff]
  constructor <;> linarith

/-- C8 amended: for every profile of byte values and every tuning set whose
constants v satisfy 0 <= v and v * 100 <= 32767 (value*100 fits the 16-bit
int used for storage), save followed by load reproduces every profile field
exactly and reproduces every tuning constant within 0.01 (strictly below
the fixed-point quantization bound); constants above 327.67 cannot be
stored at all (see the overflow counterexample). -/
theorem c8_roundtrip_within_int16_range (profile : Fin 7 → ℕ) (pid : Fin 6 → ℚ)
    (ee : ℕ → ℕ) (hp : ∀ i, profile i < 256)
    (hq : ∀ i, 0 ≤ pid i ∧ pid i * 100 ≤ 32767) :
    ∃ ee2, saveConfiguration profile pid ee = some ee2 ∧
      (∀ i, setupParametersReflow ee2 i = profile i) ∧
      (∀ i, |pid i - setupParametersPID ee2 i| < 1/100) := by
  have hcoll : collectPIDInts (List.ofFn pid)
      = some ((List.ofFn pid).map fun v => rtrunc (v * 100)) := by
    refine collectPIDInts_some _ ?_
    intro v hv
    obtain ⟨j, rfl⟩ := (List.mem_ofFn _ _).mp hv
    exact hq j
  refine ⟨writeIntArrayIntoEEPROM 8 ((List.ofFn pid).map fun v => rtrunc (v * 100))
      (writeUInt8TArrayIntoEEPROM 1 (List.ofFn profile) ee), ?_, fun i => ?_, fun j => ?_⟩
  · rw [saveConfiguration, hcoll]
  · have h1 := savedStore_profile (List.ofFn profile)
      ((List.ofFn pid).map fun v => rtrunc (v * 100)) ee (i : ℕ)
      (by simp) (by simp) (by rw [getD_ofFn]; exact hp i)
    exact h1.trans (getD_ofFn profile 0 i)
  · obtain ⟨hq0, hq1⟩ := hq j
    have h0 : (0 : ℚ) ≤ pid j * 100 := mul_nonneg hq0 (by norm_num)
    have hrt : rtrunc (pid j * 100) = ⌊pid j * 100⌋ := by rw [rtrunc, if_pos h0]
    have hb0 : (0 : ℤ) ≤ rtrunc (pid j * 100) := by
      rw [hrt]
      exact Int.floor_nonneg.mpr h0
    have hb1 : rtrunc (pid j * 100) ≤ 32767 := by
      rw [hrt]
      have h2 : (⌊pid j * 100⌋ : ℚ) ≤ 32767 := le_trans (Int.floor_le _) hq1
      exact_mod_cast h2
    have h3 := savedStore_int (List.ofFn profile)
      ((List.ofFn pid).map fun v => rtrunc (v * 100)) ee (j : ℕ)
      (rtrunc (pid j * 100)) (by simp) (getD_map_ofFn _ pid j) hb0 hb1
    have h4 : setupParametersPID (writeIntArrayIntoEEPROM 8
        ((List.ofFn pid).map fun v => rtrunc (v * 100))
        (writeUInt8TArrayIntoEEPROM 1 (List.ofFn profile) ee)) j
        = ((rtrunc (pid j * 100) : ℤ) : ℚ) / 100 :=
      congrArg (fun z : ℤ => (z : ℚ) / 100) h3
    rw [h4, hrt]
    exact floor_div100_err (pid j)

/-- Witness for C8 amended: a constant profile of 100 and constant tuning
constants of 1.00 roundtrip through an initially zeroed store. -/
theorem c8_roundtrip_within_int16_range_witness :
    ∃ ee2, saveConfiguration (fun _ => 100) (fun _ => 1) (fun _ => 0) = some ee2 ∧
      (∀ i, setupParametersReflow ee2 i = 100) ∧
      (∀ i : Fin 6, |(1 : ℚ) - setupParametersPID ee2 i| < 1/100) :=
  c8_roundtrip_within_int16_range (fun _ => 100) (fun _ => 1) (fun _ => 0)
    (fun _ => by norm_num) (fun _ => by norm_num)
